import Mathlib

/-!
Shallow embedding of the `radio_datetime_utils` crate
(`src/lib.rs` and `src/radio_datetime_helpers.rs`).

Machine integers (`u8`, `usize`) are modelled as `Nat`.  All `u8`
arithmetic appearing in the source is overflow-free except in
`add_minute`, where the increments and the DST hour pre-adjustment can
under/overflow; those operations are modelled with `chkAdd8`/`chkSub8`,
whose `none` result stands for a Rust arithmetic-overflow panic.
Likewise out-of-bounds buffer accesses in the bit-buffer helpers are
modelled as a `none` at the outer layer of the result type
(`Option (Option _)`): the outer `none` is a panic, the inner option is
the `Option` the Rust function returns.
-/

namespace RadioDatetimeUtils

/-- DST change has been announced (bit mask, `lib.rs`). -/
def DST_ANNOUNCED : Nat := 1

/-- DST change has been processed. -/
def DST_PROCESSED : Nat := 2

/-- Unexpected jump in DST state. -/
def DST_JUMP : Nat := 4

/-- DST is active. -/
def DST_SUMMER : Nat := 8

/-- Leap second has been announced. -/
def LEAP_ANNOUNCED : Nat := 1

/-- Leap second has been processed. -/
def LEAP_PROCESSED : Nat := 2

/-- Leap second is unexpectedly absent. -/
def LEAP_MISSING : Nat := 4

/-- Complement of a bit mask inside `u8`, i.e. Rust `!m` for `m ≤ 255`. -/
def bnot8 (m : Nat) : Nat := 255 ^^^ m

/-- Rust `(mask & bit) != 0`, the test used for all status-mask bits. -/
def hasBit (mask bit : Nat) : Bool := mask &&& bit != 0

/-- Checked `u8` addition: `none` models a Rust overflow panic. -/
def chkAdd8 (a b : Nat) : Option Nat := if a + b ≤ 255 then some (a + b) else none

/-- Checked `u8` subtraction: `none` models a Rust underflow panic. -/
def chkSub8 (a b : Nat) : Option Nat := if b ≤ a then some (a - b) else none

/-- The state struct `RadioDateTimeUtils` of `lib.rs`. -/
structure RadioDateTimeUtils where
  year : Option Nat
  month : Option Nat
  day : Option Nat
  weekday : Option Nat
  hour : Option Nat
  minute : Option Nat
  dst : Option Nat
  leap_second : Option Nat
  jump_year : Bool
  jump_month : Bool
  jump_day : Bool
  jump_weekday : Bool
  jump_hour : Bool
  jump_minute : Bool
  min_weekday : Nat
  max_weekday : Nat
  minutes_running : Nat
  dst_count : Nat
  first_minute : Bool
  leap_second_count : Nat
deriving DecidableEq

namespace RadioDateTimeUtils

/-- `RadioDateTimeUtils::new(sunday)`. -/
def new (sunday : Nat) : RadioDateTimeUtils where
  year := none
  month := none
  day := none
  weekday := none
  hour := none
  minute := none
  dst := none
  leap_second := none
  jump_year := false
  jump_month := false
  jump_day := false
  jump_weekday := false
  jump_hour := false
  jump_minute := false
  min_weekday := if sunday ≠ 0 then 1 else 0
  max_weekday := if sunday = 7 then 7 else 6
  minutes_running := 0
  dst_count := 0
  first_minute := true
  leap_second_count := 0

/-- `is_valid()`: date, time and DST are all present. -/
def is_valid (self : RadioDateTimeUtils) : Bool :=
  self.dst.isSome && self.year.isSome && self.month.isSome && self.day.isSome
    && self.weekday.isSome && self.hour.isSome && self.minute.isSome

/-- `is_leap_century(day, weekday)` of `lib.rs`.  The `u8` subtraction
`8 - wd` underflows when the normalized weekday exceeds 8, so it is
modelled with `chkSub8` and the outer `none` is that panic, per this
file's convention for `u8` overflow.  (`28 - day` is guarded by
`day < 29` and cannot underflow; the additions stay below 256.) -/
def is_leap_century (day weekday : Nat) : Option Bool :=
  let wd := if weekday = 0 then 7 else weekday
  if day < 29 then
    match chkSub8 8 wd with
    | none => none
    | some inv => some (day + 7 * ((28 - day) / 7) + inv == 28)
  else
    some (wd == 2)

/-- `last_day(&self, day)` of `lib.rs`.  The inner option is the Rust
return value (`some none` is the normal `None` failure); the outer
`none` is the panic propagated from `is_leap_century`, which the
short-circuiting `||`/`&&` of the source reaches only when the stored
month is 2 and the stored year is 0 (and not divisible by 4, which is
vacuous for 0). -/
def last_day (self : RadioDateTimeUtils) (day : Nat) : Option (Option Nat) :=
  if self.year = none ∨ self.month = none ∨ self.weekday = none
      ∨ ¬(1 ≤ day ∧ day ≤ 31) then
    some none
  else
    let s_year := self.year.getD 0
    let s_month := self.month.getD 0
    let s_weekday := self.weekday.getD 0
    if s_month = 2 then
      if s_year ≠ 0 ∧ s_year % 4 = 0 then
        some (some 29)
      else if s_year = 0 then
        match is_leap_century day s_weekday with
        | none => none
        | some b => some (if b = true then some 29 else some 28)
      else
        some (some 28)
    else if s_month = 4 ∨ s_month = 6 ∨ s_month = 9 ∨ s_month = 11 then
      some (some 30)
    else
      some (some 31)

/-- The value of `last_day` that `set_day` reads.  In the source a panic
inside `last_day` would abort `set_day`; that needs a stored weekday
above 8 together with month 2 and year 0, a state unreachable through
the public setters (they confine the weekday to `min..=max ⊆ 0..=7`).
This total reading collapses that unreachable panic into the `None`
failure so the setters keep their total signatures. -/
def last_day_read (self : RadioDateTimeUtils) (day : Nat) : Option Nat :=
  (self.last_day day).getD none

/-- `set_year(value, valid, check_jump)`. -/
def set_year (self : RadioDateTimeUtils) (value : Option Nat)
    (valid check_jump : Bool) : RadioDateTimeUtils :=
  let year := if value.isSome = true ∧ value.getD 0 ≤ 99 ∧ valid = true
    then value else self.year
  { self with
    year := year
    jump_year := check_jump && year.isSome && self.year.isSome
      && decide (year ≠ self.year) }

/-- `set_month(value, valid, check_jump)`. -/
def set_month (self : RadioDateTimeUtils) (value : Option Nat)
    (valid check_jump : Bool) : RadioDateTimeUtils :=
  let month := if value.isSome = true ∧ 1 ≤ value.getD 0 ∧ value.getD 0 ≤ 12 ∧ valid = true
    then value else self.month
  { self with
    month := month
    jump_month := check_jump && month.isSome && self.month.isSome
      && decide (month ≠ self.month) }

/-- `set_weekday(value, valid, check_jump)`. -/
def set_weekday (self : RadioDateTimeUtils) (value : Option Nat)
    (valid check_jump : Bool) : RadioDateTimeUtils :=
  let weekday := if value.isSome = true ∧ self.min_weekday ≤ value.getD 0
      ∧ value.getD 0 ≤ self.max_weekday ∧ valid = true
    then value else self.weekday
  { self with
    weekday := weekday
    jump_weekday := check_jump && weekday.isSome && self.weekday.isSome
      && decide (weekday ≠ self.weekday) }

/-- `set_day(value, valid, check_jump)`. -/
def set_day (self : RadioDateTimeUtils) (value : Option Nat)
    (valid check_jump : Bool) : RadioDateTimeUtils :=
  let day := if value.isSome = true ∧ (self.last_day_read (value.getD 0)).isSome = true
      ∧ 1 ≤ value.getD 0 ∧ value.getD 0 ≤ (self.last_day_read (value.getD 0)).getD 0
      ∧ valid = true
    then value else self.day
  { self with
    day := day
    jump_day := check_jump && day.isSome && self.day.isSome
      && decide (day ≠ self.day) }

/-- `set_hour(value, valid, check_jump)`. -/
def set_hour (self : RadioDateTimeUtils) (value : Option Nat)
    (valid check_jump : Bool) : RadioDateTimeUtils :=
  let hour := if value.isSome = true ∧ value.getD 0 ≤ 23 ∧ valid = true
    then value else self.hour
  { self with
    hour := hour
    jump_hour := check_jump && hour.isSome && self.hour.isSome
      && decide (hour ≠ self.hour) }

/-- `set_minute(value, valid, check_jump)`. -/
def set_minute (self : RadioDateTimeUtils) (value : Option Nat)
    (valid check_jump : Bool) : RadioDateTimeUtils :=
  let minute := if value.isSome = true ∧ value.getD 0 ≤ 59 ∧ valid = true
    then value else self.minute
  { self with
    minute := minute
    jump_minute := check_jump && minute.isSome && self.minute.isSome
      && decide (minute ≠ self.minute) }

/-- Store the six advanced clock fields, the common tail of `add_minute`. -/
def store (self : RadioDateTimeUtils) (m h d w mo y : Nat) : RadioDateTimeUtils :=
  { self with
    minute := some m
    hour := some h
    day := some d
    weekday := some w
    month := some mo
    year := some y }

/-- The `if s_hour == 24` block of `add_minute`: weekday, day, month and
year advance with their wraparounds.  `none` models a panic (a `u8`
overflow or the `.unwrap()` on `last_day`). -/
def day_rollover (self : RadioDateTimeUtils) (d0 wd0 mo0 y0 : Nat) :
    Option (Bool × RadioDateTimeUtils) :=
  match self.last_day d0 with
  | none => none
  | some none => none
  | some (some old_last_day) =>
    match chkAdd8 wd0 1, chkAdd8 self.max_weekday 1, chkAdd8 d0 1 with
    | some w1, some mw1, some d1 =>
      let w2 := if w1 = mw1 then self.min_weekday else w1
      if old_last_day < d1 then
        match chkAdd8 mo0 1 with
        | none => none
        | some mo1 =>
          if mo1 = 13 then
            match chkAdd8 y0 1 with
            | none => none
            | some y1 =>
              some (true, store self 0 0 1 w2 1 (if y1 = 100 then 0 else y1))
          else
            some (true, store self 0 0 1 w2 mo1 y0)
      else
        some (true, store self 0 0 d1 w2 mo0 y0)
    | _, _, _ => none

/-- `add_minute()`.  Result `none` models a panic (u8 overflow or a failed
`unwrap`), `some (false, self)` models the early `return false`, and
`some (true, s)` a successful advance to state `s`. -/
def add_minute (self : RadioDateTimeUtils) : Option (Bool × RadioDateTimeUtils) :=
  if self.is_valid = true then
    let m0 := self.minute.getD 0
    let h0 := self.hour.getD 0
    let d0 := self.day.getD 0
    let wd0 := self.weekday.getD 0
    let mo0 := self.month.getD 0
    let y0 := self.year.getD 0
    let dstv := self.dst.getD 0
    match chkAdd8 m0 1 with
    | none => none
    | some m1 =>
      if m1 = 60 then
        let hAdj : Option Nat :=
          if hasBit dstv DST_ANNOUNCED = true then
            if hasBit dstv DST_SUMMER = true then chkSub8 h0 1 else chkAdd8 h0 1
          else some h0
        match hAdj with
        | none => none
        | some h1 =>
          match chkAdd8 h1 1 with
          | none => none
          | some h2 =>
            if h2 = 24 then
              day_rollover self d0 wd0 mo0 y0
            else
              some (true, store self 0 h2 d0 wd0 mo0 y0)
      else
        some (true, store self m1 h0 d0 wd0 mo0 y0)
  else
    some (false, self)

/-- The announcement majority vote shared by `set_dst` and
`set_leap_second` (`if self.minute.is_some() && self.minute.unwrap() > 0`):
once the minute is past 0, set the ANNOUNCED bit (bit 0 of both masks) when
twice the announcement count exceeds the running minute counter, clear it
otherwise. -/
def vote_announced (minute : Option Nat) (minutes_running cnt d : Nat) : Nat :=
  match minute with
  | some m =>
    if 0 < m then
      if minutes_running < 2 * cnt then d ||| DST_ANNOUNCED
      else d &&& bnot8 DST_ANNOUNCED
    else d
  | none => d

/-- The value-change block of `set_dst`
(`if value.unwrap() != ((self.dst.unwrap() & DST_SUMMER) != 0) { … }`). -/
def dst_change (first_minute : Bool) (minute : Option Nat) (vb check_jump : Bool)
    (d : Nat) : Nat :=
  if vb ≠ hasBit d DST_SUMMER then
    if first_minute = true ∨ (hasBit d DST_ANNOUNCED = true ∧ minute = some 0) then
      if vb = true then d ||| DST_SUMMER else d &&& bnot8 DST_SUMMER
    else if check_jump = true then d ||| DST_JUMP
    else d
  else d

/-- The PROCESSED block of `set_dst`
(`if self.minute == Some(0) && (self.dst.unwrap() & DST_ANNOUNCED) != 0 … else if self.minute.is_some() …`). -/
def dst_process (minute : Option Nat) (d : Nat) : Nat :=
  if minute = some 0 ∧ hasBit d DST_ANNOUNCED = true then d ||| DST_PROCESSED
  else if minute.isSome = true then d &&& bnot8 DST_PROCESSED
  else d

/-- The end-of-hour announcement reset shared by `set_dst` and
`set_leap_second` (`if self.minute == Some(0) { … & !…_ANNOUNCED }`). -/
def reset_announced (minute : Option Nat) (d : Nat) : Nat :=
  if minute = some 0 then d &&& bnot8 DST_ANNOUNCED else d

/-- `set_dst(value, announce, check_jump)`.  The successive mutations of
`self.dst` in the source are modelled by composing the stage functions
above on the unwrapped mask (a missing mask is first initialized to 0). -/
def set_dst (self : RadioDateTimeUtils) (value announce : Option Bool)
    (check_jump : Bool) : RadioDateTimeUtils :=
  match value, announce with
  | some vb, some ab =>
    let cnt1 := if ab = true then self.dst_count + 1 else self.dst_count
    let d5 :=
      reset_announced self.minute
        (dst_process self.minute
          (dst_change self.first_minute self.minute vb check_jump
            (vote_announced self.minute self.minutes_running cnt1
              (self.dst.getD 0 &&& bnot8 DST_JUMP))))
    { self with
      dst := some d5
      dst_count := if self.minute = some 0 then 0 else cnt1
      first_minute := false }
  | _, _ => self

/-- The leap-second PROCESSED/MISSING block of `set_leap_second`
(`if self.minute == Some(0) && (self.leap_second.unwrap() & LEAP_ANNOUNCED) != 0 { … }`). -/
def leap_process (minute : Option Nat) (minute_length l : Nat) : Nat :=
  if minute = some 0 ∧ hasBit l LEAP_ANNOUNCED = true then
    if minute_length = 60 then (l ||| LEAP_PROCESSED) ||| LEAP_MISSING
    else (l ||| LEAP_PROCESSED) &&& bnot8 LEAP_MISSING
  else if minute.isSome = true then
    (l &&& bnot8 LEAP_PROCESSED) &&& bnot8 LEAP_MISSING
  else l

/-- `set_leap_second(announce, minute_length)`. -/
def set_leap_second (self : RadioDateTimeUtils) (announce : Option Bool)
    (minute_length : Nat) : RadioDateTimeUtils :=
  match announce with
  | none => self
  | some ab =>
    if minute_length < 60 ∨ 61 < minute_length then self
    else
      let cnt1 := if ab = true then self.leap_second_count + 1 else self.leap_second_count
      let l3 :=
        reset_announced self.minute
          (leap_process self.minute minute_length
            (vote_announced self.minute self.minutes_running cnt1
              (self.leap_second.getD 0)))
      { self with
        leap_second := some l3
        leap_second_count := if self.minute = some 0 then 0 else cnt1 }

end RadioDateTimeUtils

open RadioDateTimeUtils

/-- The sequence of buffer indices visited by the manual loop of
`get_bcd_value`: from `start` to `stop` inclusive, ascending or
descending depending on the order of the two end points. -/
def span_indices (start stop : Nat) : List Nat :=
  if start ≤ stop then (List.range (stop + 1 - start)).map (fun i => start + i)
  else (List.range (start + 1 - stop)).map (fun i => start - i)

/-- The loop body of `get_bcd_value`, indexing the buffer at each visited
position and accumulating the packed BCD value.  The outer `none` models
the panic of an out-of-bounds `bit_buffer[idx]`; the inner option is the
returned Rust `Option`. -/
def bcd_loop (bit_buffer : List (Option Bool)) :
    List Nat → Nat → Nat → Option (Option Nat)
  | [], bcd, _ => some (if bcd < 100 then some bcd else none)
  | idx :: rest, bcd, mult =>
    match bit_buffer.get? idx with
    | none => none
    | some none => some none
    | some (some bit) =>
      let bcd2 := bcd + mult * (if bit = true then 1 else 0)
      let mult2 := mult * 2
      if mult2 = 16 then
        if 9 < bcd2 then some none else bcd_loop bit_buffer rest bcd2 10
      else bcd_loop bit_buffer rest bcd2 mult2

/-- `get_bcd_value(bit_buffer, start, stop)` of `radio_datetime_helpers.rs`. -/
def get_bcd_value (bit_buffer : List (Option Bool)) (start stop : Nat) :
    Option (Option Nat) :=
  let p0 := min start stop
  let p1 := max start stop
  if 8 ≤ p1 - p0 then some none
  else bcd_loop bit_buffer (span_indices start stop) 0 1

/-- The XOR fold of `get_parity` over the selected slice; `none` is the
early return on an unknown bit. -/
def parity_loop : List (Option Bool) → Bool → Option Bool
  | [], p => some p
  | none :: _, _ => none
  | some b :: rest, p => parity_loop rest (xor p b)

/-- `get_parity(bit_buffer, start, stop, parity)` of
`radio_datetime_helpers.rs`.  The slice `&bit_buffer[p0..=p1]` panics
(outer `none`) when `p1` is not below the buffer length. -/
def get_parity (bit_buffer : List (Option Bool)) (start stop : Nat)
    (parity : Option Bool) : Option (Option Bool) :=
  match parity with
  | none => some none
  | some sp =>
    let p0 := min start stop
    let p1 := max start stop
    if p1 < bit_buffer.length then
      some (parity_loop ((bit_buffer.drop p0).take (p1 + 1 - p0)) sp)
    else none

/-- Modelled from the spec (section 4.2): given a `(day, weekday)` pair in
February of a century year, the weekday of February 28 obtained by moving
the pair forward or backward by whole weeks; the century is a leap
century exactly when that projected weekday is Monday (1), or, for a
day of 29 or more, when the weekday itself is Tuesday (2).  Weekday 0 is
first normalized to 7. -/
def spec_leap_century (day weekday : Nat) : Bool :=
  let wd := if weekday = 0 then 7 else weekday
  if day < 29 then ((wd - 1) + (28 - day)) % 7 + 1 == 1
  else wd == 2

/-! Concrete states used as counterexample and witness inputs. -/

/-- A valid state at 00:59 with a DST change back to winter announced
(`SUMMER` and `ANNOUNCED` both set); reachable through `set_minute`,
`set_hour` and `set_dst`. -/
def underflow_state : RadioDateTimeUtils :=
  { RadioDateTimeUtils.new 0 with
    year := some 0
    month := some 1
    day := some 1
    weekday := some 6
    hour := some 0
    minute := some 59
    dst := some (DST_SUMMER ||| DST_ANNOUNCED) }

/-- A state at minute 0 that is past its first decoded minute and has no
DST change announced. -/
def dst_minute0_state : RadioDateTimeUtils :=
  { RadioDateTimeUtils.new 0 with
    minute := some 0
    dst := some 0
    first_minute := false }

/-- A state whose stored year, month and weekday are all outside their
valid ranges. -/
def out_of_range_state : RadioDateTimeUtils :=
  { RadioDateTimeUtils.new 0 with
    year := some 100
    month := some 13
    weekday := some 9 }

/-- A state in February of year 0 whose stored weekday is outside its
valid range, driving `is_leap_century` into the `8 - wd` underflow. -/
def february_bad_weekday_state : RadioDateTimeUtils :=
  { RadioDateTimeUtils.new 0 with
    year := some 0
    month := some 2
    weekday := some 9 }

/-- A DCF77-style state at 23:59 on Friday 1999-12-31, no DST change
announced. -/
def century_state : RadioDateTimeUtils :=
  { RadioDateTimeUtils.new 0 with
    year := some 99
    month := some 12
    day := some 31
    weekday := some 5
    hour := some 23
    minute := some 59
    dst := some 0 }

/-- A state at minute 0 with a leap second announced. -/
def leap_announced_state : RadioDateTimeUtils :=
  { RadioDateTimeUtils.new 7 with
    minute := some 0
    leap_second := some LEAP_ANNOUNCED }

/-- A state with no minute but fully populated status masks. -/
def no_minute_state : RadioDateTimeUtils :=
  { RadioDateTimeUtils.new 0 with
    dst := some 15
    leap_second := some 7 }

/-! Generic bit lemmas about the `u8` mask operations. -/

theorem and_two_pow_eq (x k : Nat) :
    x &&& 2 ^ k = if x.testBit k then 2 ^ k else 0 := by
  apply Nat.eq_of_testBit_eq
  intro i
  rw [Nat.testBit_and]
  by_cases hk : k = i
  · subst hk
    cases hx : x.testBit k <;>
      simp [hx, Nat.testBit_two_pow_self, Nat.zero_testBit]
  · cases hx : x.testBit k <;>
      simp [hx, Nat.testBit_two_pow_of_ne hk, Nat.zero_testBit]

theorem hasBit_testBit (x k : Nat) : hasBit x (2 ^ k) = x.testBit k := by
  unfold hasBit
  rw [and_two_pow_eq]
  cases hx : x.testBit k <;> simp [hx, (Nat.pos_pow_of_pos k (by omega : 0 < 2)).ne']

theorem hasBit_one (x : Nat) : hasBit x 1 = x.testBit 0 := hasBit_testBit x 0

theorem hasBit_two (x : Nat) : hasBit x 2 = x.testBit 1 := hasBit_testBit x 1

theorem hasBit_four (x : Nat) : hasBit x 4 = x.testBit 2 := hasBit_testBit x 2

theorem hasBit_eight (x : Nat) : hasBit x 8 = x.testBit 3 := hasBit_testBit x 3

theorem testBit_or_false {m : Nat} (k : Nat) (hm : m.testBit k = false) (x : Nat) :
    (x ||| m).testBit k = x.testBit k := by
  rw [Nat.testBit_or, hm, Bool.or_false]

theorem testBit_or_true {m : Nat} (k : Nat) (hm : m.testBit k = true) (x : Nat) :
    (x ||| m).testBit k = true := by
  rw [Nat.testBit_or, hm, Bool.or_true]

theorem testBit_bnot8 (m k : Nat) (h8 : k < 8) :
    (bnot8 m).testBit k = !(m.testBit k) := by
  unfold bnot8
  rw [Nat.testBit_xor, show (255 : Nat) = 2 ^ 8 - 1 from rfl,
    Nat.testBit_two_pow_sub_one]
  simp [h8]

theorem testBit_and_bnot8_other (x m k : Nat) (h8 : k < 8)
    (hm : m.testBit k = false) : (x &&& bnot8 m).testBit k = x.testBit k := by
  rw [Nat.testBit_and, testBit_bnot8 m k h8, hm, Bool.not_false, Bool.and_true]

theorem testBit_and_bnot8_self (x m k : Nat) (h8 : k < 8)
    (hm : m.testBit k = true) : (x &&& bnot8 m).testBit k = false := by
  rw [Nat.testBit_and, testBit_bnot8 m k h8, hm, Bool.not_true, Bool.and_false]

theorem one_testBit_ne (k : Nat) (h0 : k ≠ 0) : (1 : Nat).testBit k = false := by
  rw [show (1 : Nat) = 2 ^ 0 from rfl]
  exact Nat.testBit_two_pow_of_ne fun h => h0 h.symm

/-! Bit-preservation lemmas for the status-mask pipeline stages. -/

theorem vote_announced_testBit (mi : Option Nat) (r c d k : Nat)
    (h0 : k ≠ 0) (h8 : k < 8) :
    (vote_announced mi r c d).testBit k = d.testBit k := by
  unfold vote_announced
  cases mi with
  | none => rfl
  | some m =>
    dsimp only
    split
    · split
      · exact testBit_or_false k (one_testBit_ne k h0) d
      · exact testBit_and_bnot8_other d DST_ANNOUNCED k h8 (one_testBit_ne k h0)
    · rfl

theorem reset_announced_testBit (mi : Option Nat) (d k : Nat)
    (h0 : k ≠ 0) (h8 : k < 8) :
    (reset_announced mi d).testBit k = d.testBit k := by
  unfold reset_announced
  split
  · exact testBit_and_bnot8_other d DST_ANNOUNCED k h8 (one_testBit_ne k h0)
  · rfl

theorem dst_process_testBit (mi : Option Nat) (d k : Nat)
    (h1 : k ≠ 1) (h8 : k < 8) :
    (dst_process mi d).testBit k = d.testBit k := by
  have hp : DST_PROCESSED.testBit k = false := by
    rw [show DST_PROCESSED = 2 ^ 1 from rfl]
    exact Nat.testBit_two_pow_of_ne fun h => h1 h.symm
  unfold dst_process
  split
  · exact testBit_or_false k hp d
  · split
    · exact testBit_and_bnot8_other d DST_PROCESSED k h8 hp
    · rfl

theorem dst_change_testBit_other (fm : Bool) (mi : Option Nat) (vb cj : Bool)
    (d k : Nat) (h2 : k ≠ 2) (h3 : k ≠ 3) (h8 : k < 8) :
    (dst_change fm mi vb cj d).testBit k = d.testBit k := by
  have hs : DST_SUMMER.testBit k = false := by
    rw [show DST_SUMMER = 2 ^ 3 from rfl]
    exact Nat.testBit_two_pow_of_ne fun h => h3 h.symm
  have hj : DST_JUMP.testBit k = false := by
    rw [show DST_JUMP = 2 ^ 2 from rfl]
    exact Nat.testBit_two_pow_of_ne fun h => h2 h.symm
  unfold dst_change
  split
  · split
    · split
      · exact testBit_or_false k hs d
      · exact testBit_and_bnot8_other d DST_SUMMER k h8 hs
    · split
      · exact testBit_or_false k hj d
      · rfl
  · rfl

theorem dst_change_testBit3 (fm : Bool) (mi : Option Nat) (vb cj : Bool)
    (d : Nat) (h : fm = true ∨ (hasBit d DST_ANNOUNCED = true ∧ mi = some 0)) :
    (dst_change fm mi vb cj d).testBit 3 = vb := by
  unfold dst_change
  by_cases hc : vb ≠ hasBit d DST_SUMMER
  · rw [if_pos hc, if_pos h]
    cases vb with
    | false =>
      rw [if_neg (by simp)]
      exact testBit_and_bnot8_self d DST_SUMMER 3 (by omega) (by decide)
    | true =>
      rw [if_pos rfl]
      exact testBit_or_true 3 (by decide) d
  · rw [if_neg hc]
    rw [not_not] at hc
    rw [← hasBit_eight, hc]
    rfl

/-- `is_leap_century` panics exactly on a day below 29 with a normalized
weekday above 8 (the `8 - wd` underflow). -/
theorem is_leap_century_eq_none_iff (day weekday : Nat) :
    is_leap_century day weekday = none ↔
      (day < 29 ∧ 8 < (if weekday = 0 then 7 else weekday)) := by
  unfold is_leap_century
  dsimp only
  by_cases hd : day < 29
  · rw [if_pos hd]
    by_cases hw : (if weekday = 0 then 7 else weekday) ≤ 8
    · rw [show chkSub8 8 (if weekday = 0 then 7 else weekday)
          = some (8 - (if weekday = 0 then 7 else weekday)) from by
        unfold chkSub8; rw [if_pos hw]]
      dsimp only
      constructor
      · intro hc
        exact Option.noConfusion hc
      · intro hr
        exact absurd hr.2 (by omega)
    · rw [show chkSub8 8 (if weekday = 0 then 7 else weekday) = none from by
        unfold chkSub8; rw [if_neg hw]]
      dsimp only
      constructor
      · intro _
        exact ⟨hd, by omega⟩
      · intro _
        rfl
  · rw [if_neg hd]
    constructor
    · intro hc
      exact Option.noConfusion hc
    · intro hr
      exact absurd hr.1 hd

/-- `last_day` returns the normal `None` failure exactly on an absent
year, month or weekday or an out-of-range day argument. -/
theorem last_day_eq_some_none_iff (rdt : RadioDateTimeUtils) (day : Nat) :
    rdt.last_day day = some none ↔
      (rdt.year = none ∨ rdt.month = none ∨ rdt.weekday = none
        ∨ day < 1 ∨ 31 < day) := by
  unfold RadioDateTimeUtils.last_day
  by_cases h : rdt.year = none ∨ rdt.month = none ∨ rdt.weekday = none
      ∨ ¬(1 ≤ day ∧ day ≤ 31)
  · rw [if_pos h]
    simp only [true_iff]
    rcases h with h | h | h | h
    · exact Or.inl h
    · exact Or.inr (Or.inl h)
    · exact Or.inr (Or.inr (Or.inl h))
    · rcases Nat.lt_or_ge day 1 with hd | hd
      · exact Or.inr (Or.inr (Or.inr (Or.inl hd)))
      · exact Or.inr (Or.inr (Or.inr (Or.inr (by omega))))
  · rw [if_neg h]
    push_neg at h
    obtain ⟨h1, h2, h3, h4⟩ := h
    constructor
    · intro hc
      dsimp only at hc
      exfalso
      split at hc
      · split at hc
        · exact Option.noConfusion (Option.some.inj hc)
        · split at hc
          · cases hilc : is_leap_century day (rdt.weekday.getD 0) with
            | none =>
              rw [hilc] at hc
              exact Option.noConfusion hc
            | some b =>
              rw [hilc] at hc
              dsimp only at hc
              have hb := Option.some.inj hc
              split at hb <;> exact Option.noConfusion hb
          · exact Option.noConfusion (Option.some.inj hc)
      · split at hc <;> exact Option.noConfusion (Option.some.inj hc)
    · intro hr
      exfalso
      rcases hr with h | h | h | h | h
      · exact h1 h
      · exact h2 h
      · exact h3 h
      · omega
      · omega

/-- `last_day` panics exactly when the stored year is 0 and the stored
month is 2 (the only route to `is_leap_century`) while the stored
weekday exceeds 8 and the day argument is between 1 and 28. -/
theorem last_day_eq_none_iff (rdt : RadioDateTimeUtils) (day : Nat) :
    rdt.last_day day = none ↔
      (rdt.year = some 0 ∧ rdt.month = some 2
        ∧ (∃ w, rdt.weekday = some w ∧ 8 < w) ∧ 1 ≤ day ∧ day < 29) := by
  constructor
  · intro hc
    unfold RadioDateTimeUtils.last_day at hc
    by_cases h : rdt.year = none ∨ rdt.month = none ∨ rdt.weekday = none
        ∨ ¬(1 ≤ day ∧ day ≤ 31)
    · rw [if_pos h] at hc
      exact Option.noConfusion hc
    · rw [if_neg h] at hc
      push_neg at h
      obtain ⟨h1, h2, h3, h4⟩ := h
      cases hyv : rdt.year with
      | none => exact absurd hyv h1
      | some yv =>
      cases hmv : rdt.month with
      | none => exact absurd hmv h2
      | some mv =>
      cases hwv : rdt.weekday with
      | none => exact absurd hwv h3
      | some wv =>
      rw [hyv, hmv, hwv] at hc
      simp only [Option.getD_some] at hc
      split at hc
      · split at hc
        · exact Option.noConfusion hc
        · split at hc
          · cases hilc : is_leap_century day wv with
            | none =>
              rw [is_leap_century_eq_none_iff] at hilc
              have hw8 : 8 < wv := by
                have := hilc.2
                split at this
                · omega
                · exact this
              have hm2 : mv = 2 := by assumption
              have hy0 : yv = 0 := by assumption
              exact ⟨by rw [hy0], by rw [hm2], ⟨wv, rfl, hw8⟩, h4.1, hilc.1⟩
            | some b =>
              rw [hilc] at hc
              exact Option.noConfusion hc
          · exact Option.noConfusion hc
      · split at hc <;> exact Option.noConfusion hc
  · intro ⟨hy0, hm2, ⟨w, hww, hw8⟩, hd1, hd29⟩
    unfold RadioDateTimeUtils.last_day
    rw [if_neg (by
      push_neg
      refine ⟨by rw [hy0]; exact Option.noConfusion, by rw [hm2]; exact Option.noConfusion,
        by rw [hww]; exact Option.noConfusion, by omega⟩)]
    rw [hy0, hm2, hww]
    simp only [Option.getD_some]
    rw [show is_leap_century day w = none from
      (is_leap_century_eq_none_iff day w).mpr ⟨hd29, by rw [if_neg (by omega)]; exact hw8⟩]
    simp

/-- With year, month and weekday present, a day argument in 1..=31 and a
stored weekday of at most 8, `last_day` returns normally with a value. -/
theorem last_day_some_some (rdt : RadioDateTimeUtils) (day : Nat)
    (hyp : rdt.year ≠ none) (hmop : rdt.month ≠ none) (hwp : rdt.weekday ≠ none)
    (hws : ∀ w, rdt.weekday = some w → w ≤ 8) (hd : 1 ≤ day ∧ day ≤ 31) :
    ∃ ld, rdt.last_day day = some (some ld) := by
  cases hld : rdt.last_day day with
  | none =>
    exfalso
    rw [last_day_eq_none_iff] at hld
    obtain ⟨_, _, ⟨w, hww, h8⟩, _⟩ := hld
    exact absurd (hws w hww) (by omega)
  | some ld2 =>
    cases ld2 with
    | none =>
      exfalso
      rw [last_day_eq_some_none_iff] at hld
      rcases hld with h | h | h | h | h
      · exact hyp h
      · exact hmop h
      · exact hwp h
      · omega
      · omega
    | some ld => exact ⟨ld, rfl⟩

theorem vote_announced_minute0 (r c d : Nat) : vote_announced (some 0) r c d = d := rfl

theorem vote_announced_none (r c d : Nat) : vote_announced none r c d = d := rfl

theorem reset_announced_none (d : Nat) : reset_announced none d = d := rfl

theorem dst_process_none (d : Nat) : dst_process none d = d := rfl

theorem leap_process_none (ml l : Nat) : leap_process none ml l = l := rfl

theorem span_indices_le (start stop : Nat) :
    ∀ i ∈ span_indices start stop, i ≤ max start stop := by
  intro i hi
  unfold span_indices at hi
  split at hi
  · simp only [List.mem_map, List.mem_range] at hi
    obtain ⟨k, hk, rfl⟩ := hi
    omega
  · simp only [List.mem_map, List.mem_range] at hi
    obtain ⟨k, hk, rfl⟩ := hi
    omega

theorem bcd_loop_ne_none (bit_buffer : List (Option Bool)) :
    ∀ (idxs : List Nat) (bcd mult : Nat),
      (∀ i ∈ idxs, i < bit_buffer.length) →
      bcd_loop bit_buffer idxs bcd mult ≠ none := by
  intro idxs
  induction idxs with
  | nil =>
    intro bcd mult _
    simp [bcd_loop]
  | cons i rest ih =>
    intro bcd mult hbound
    have hi : i < bit_buffer.length := hbound i (by simp)
    have hrest : ∀ j ∈ rest, j < bit_buffer.length := fun j hj =>
      hbound j (by simp [hj])
    simp only [bcd_loop]
    cases hg : bit_buffer.get? i with
    | none =>
      exfalso
      rw [List.get?_eq_none] at hg
      omega
    | some ob =>
      cases ob with
      | none => simp
      | some b =>
        dsimp only
        repeat' split
        all_goals first
          | exact ih _ _ hrest
          | simp

/-! The claims. -/

/-- C1: the claimed weekday-projection rule disagrees with the code.  On
day 28 with weekday 1 — the date 2000-02-28, which really was a Monday —
the projected weekday for February 28 is Monday itself, so the rule (and
the doc comment of the function) yields a leap century, yet
`is_leap_century` returns `false`; the same happens on days 7, 14 and 21
with weekday Monday. -/
theorem C1_leap_century_code_bug :
    is_leap_century 28 1 = some false ∧ spec_leap_century 28 1 = true
      ∧ is_leap_century 7 1 = some false ∧ spec_leap_century 7 1 = true := by
  decide

/-- C4 counterexample: the inclusive span of positions 0 through 7 is 8
bits wide, yet `get_bcd_value` decodes it successfully (the bits of the
packed BCD value 91): spans must be at least 9 bits wide to be rejected. -/
theorem C4_counterexample :
    get_bcd_value
        [some true, some false, some false, some false,
         some true, some false, some false, some true] 0 7 = some (some 91)
      ∧ max 0 7 + 1 - min 0 7 = 8 := by
  decide

/-- C4 (amended): for every buffer and every pair of positions whose
inclusive span is at least 9 bits wide — i.e. the positions differ by at
least 8 — `get_bcd_value` returns `None` (and does not panic). -/
theorem C4_bcd_wide_span_none (bit_buffer : List (Option Bool)) (start stop : Nat)
    (h : 8 ≤ max start stop - min start stop) :
    get_bcd_value bit_buffer start stop = some none := by
  simp only [get_bcd_value]
  rw [if_pos h]

/-- C4 witness: the amended theorem applied to an empty buffer and the
9-bit span 0..=8. -/
theorem C4_bcd_wide_span_none_witness : get_bcd_value [] 0 8 = some none :=
  C4_bcd_wide_span_none [] 0 8 (by decide)

/-- C5 counterexample: with year 100, month 13 and weekday 9 stored — each
outside its valid range — `last_day` still returns `Some 31` instead of
`None` (it checks only presence of year/month/weekday and the 1..=31
range of its day argument); and with year 0, month 2 and the out-of-range
weekday 9 it panics on the `8 - wd` underflow instead of returning
`None`. -/
theorem C5_counterexample :
    out_of_range_state.year = some 100 ∧ out_of_range_state.month = some 13
      ∧ out_of_range_state.weekday = some 9
      ∧ out_of_range_state.last_day 10 = some (some 31)
      ∧ february_bad_weekday_state.year = some 0
      ∧ february_bad_weekday_state.month = some 2
      ∧ february_bad_weekday_state.weekday = some 9
      ∧ february_bad_weekday_state.last_day 10 = none := by
  decide

/-- C5 (amended): `last_day` returns the normal failure `None` exactly
when the stored year, month or weekday is absent or the day argument lies
outside 1..=31; present but out-of-range values of year, month and
weekday are otherwise not rejected — except that a stored weekday above 8
together with month 2, year 0 and a day argument of 1..=28 makes the `u8`
subtraction `8 - wd` in `is_leap_century` underflow (a panic) instead of
returning `None`. -/
theorem C5_last_day_failure_iff (rdt : RadioDateTimeUtils) (day : Nat) :
    (rdt.last_day day = some none ↔
      (rdt.year = none ∨ rdt.month = none ∨ rdt.weekday = none
        ∨ day < 1 ∨ 31 < day))
    ∧ (rdt.last_day day = none ↔
      (rdt.year = some 0 ∧ rdt.month = some 2
        ∧ (∃ w, rdt.weekday = some w ∧ 8 < w) ∧ 1 ≤ day ∧ day < 29)) :=
  ⟨last_day_eq_some_none_iff rdt day, last_day_eq_none_iff rdt day⟩

/-- C6: every field setter keeps the stored field unchanged when the
candidate value is absent, out of the field's valid range, or `valid` is
false; and no setter ever turns a present field back into `none`. -/
theorem C6_setters_retain (rdt : RadioDateTimeUtils) (value : Option Nat)
    (valid check_jump : Bool) :
    (¬(value.isSome = true ∧ value.getD 0 ≤ 99 ∧ valid = true) →
        (rdt.set_year value valid check_jump).year = rdt.year)
    ∧ (rdt.year.isSome = true → (rdt.set_year value valid check_jump).year.isSome = true)
    ∧ (¬(value.isSome = true ∧ 1 ≤ value.getD 0 ∧ value.getD 0 ≤ 12 ∧ valid = true) →
        (rdt.set_month value valid check_jump).month = rdt.month)
    ∧ (rdt.month.isSome = true → (rdt.set_month value valid check_jump).month.isSome = true)
    ∧ (¬(value.isSome = true ∧ rdt.min_weekday ≤ value.getD 0
          ∧ value.getD 0 ≤ rdt.max_weekday ∧ valid = true) →
        (rdt.set_weekday value valid check_jump).weekday = rdt.weekday)
    ∧ (rdt.weekday.isSome = true → (rdt.set_weekday value valid check_jump).weekday.isSome = true)
    ∧ (¬(value.isSome = true ∧ (rdt.last_day_read (value.getD 0)).isSome = true
          ∧ 1 ≤ value.getD 0 ∧ value.getD 0 ≤ (rdt.last_day_read (value.getD 0)).getD 0
          ∧ valid = true) →
        (rdt.set_day value valid check_jump).day = rdt.day)
    ∧ (rdt.day.isSome = true → (rdt.set_day value valid check_jump).day.isSome = true)
    ∧ (¬(value.isSome = true ∧ value.getD 0 ≤ 23 ∧ valid = true) →
        (rdt.set_hour value valid check_jump).hour = rdt.hour)
    ∧ (rdt.hour.isSome = true → (rdt.set_hour value valid check_jump).hour.isSome = true)
    ∧ (¬(value.isSome = true ∧ value.getD 0 ≤ 59 ∧ valid = true) →
        (rdt.set_minute value valid check_jump).minute = rdt.minute)
    ∧ (rdt.minute.isSome = true → (rdt.set_minute value valid check_jump).minute.isSome = true) := by
  refine ⟨?_, ?_, ?_, ?_, ?_, ?_, ?_, ?_, ?_, ?_, ?_, ?_⟩
  · intro h
    simp only [RadioDateTimeUtils.set_year]
    rw [if_neg h]
  · intro hs
    simp only [RadioDateTimeUtils.set_year]
    by_cases hcond : value.isSome = true ∧ value.getD 0 ≤ 99 ∧ valid = true
    · rw [if_pos hcond]; exact hcond.1
    · rw [if_neg hcond]; exact hs
  · intro h
    simp only [RadioDateTimeUtils.set_month]
    rw [if_neg h]
  · intro hs
    simp only [RadioDateTimeUtils.set_month]
    by_cases hcond : value.isSome = true ∧ 1 ≤ value.getD 0 ∧ value.getD 0 ≤ 12 ∧ valid = true
    · rw [if_pos hcond]; exact hcond.1
    · rw [if_neg hcond]; exact hs
  · intro h
    simp only [RadioDateTimeUtils.set_weekday]
    rw [if_neg h]
  · intro hs
    simp only [RadioDateTimeUtils.set_weekday]
    by_cases hcond : value.isSome = true ∧ rdt.min_weekday ≤ value.getD 0
        ∧ value.getD 0 ≤ rdt.max_weekday ∧ valid = true
    · rw [if_pos hcond]; exact hcond.1
    · rw [if_neg hcond]; exact hs
  · intro h
    simp only [RadioDateTimeUtils.set_day]
    rw [if_neg h]
  · intro hs
    simp only [RadioDateTimeUtils.set_day]
    by_cases hcond : value.isSome = true ∧ (rdt.last_day_read (value.getD 0)).isSome = true
        ∧ 1 ≤ value.getD 0 ∧ value.getD 0 ≤ (rdt.last_day_read (value.getD 0)).getD 0 ∧ valid = true
    · rw [if_pos hcond]; exact hcond.1
    · rw [if_neg hcond]; exact hs
  · intro h
    simp only [RadioDateTimeUtils.set_hour]
    rw [if_neg h]
  · intro hs
    simp only [RadioDateTimeUtils.set_hour]
    by_cases hcond : value.isSome = true ∧ value.getD 0 ≤ 23 ∧ valid = true
    · rw [if_pos hcond]; exact hcond.1
    · rw [if_neg hcond]; exact hs
  · intro h
    simp only [RadioDateTimeUtils.set_minute]
    rw [if_neg h]
  · intro hs
    simp only [RadioDateTimeUtils.set_minute]
    by_cases hcond : value.isSome = true ∧ value.getD 0 ≤ 59 ∧ valid = true
    · rw [if_pos hcond]; exact hcond.1
    · rw [if_neg hcond]; exact hs

/-- C6 witness: a rejected out-of-range year candidate leaves the field
untouched. -/
theorem C6_setters_retain_witness :
    ((RadioDateTimeUtils.new 0).set_year (some 100) true false).year
      = (RadioDateTimeUtils.new 0).year :=
  (C6_setters_retain (RadioDateTimeUtils.new 0) (some 100) true false).1 (by decide)

/-- C7: after any setter call, the field's jump flag is set exactly when
jump checking was requested, the old stored value was present, the new
stored value is present, and the two differ; in every other case it is
cleared. -/
theorem C7_setter_jump_flags (rdt : RadioDateTimeUtils) (value : Option Nat)
    (valid check_jump : Bool) :
    ((rdt.set_year value valid check_jump).jump_year = true ↔
      (check_jump = true ∧ (rdt.set_year value valid check_jump).year.isSome = true
        ∧ rdt.year.isSome = true ∧ (rdt.set_year value valid check_jump).year ≠ rdt.year))
    ∧ ((rdt.set_month value valid check_jump).jump_month = true ↔
      (check_jump = true ∧ (rdt.set_month value valid check_jump).month.isSome = true
        ∧ rdt.month.isSome = true ∧ (rdt.set_month value valid check_jump).month ≠ rdt.month))
    ∧ ((rdt.set_weekday value valid check_jump).jump_weekday = true ↔
      (check_jump = true ∧ (rdt.set_weekday value valid check_jump).weekday.isSome = true
        ∧ rdt.weekday.isSome = true ∧ (rdt.set_weekday value valid check_jump).weekday ≠ rdt.weekday))
    ∧ ((rdt.set_day value valid check_jump).jump_day = true ↔
      (check_jump = true ∧ (rdt.set_day value valid check_jump).day.isSome = true
        ∧ rdt.day.isSome = true ∧ (rdt.set_day value valid check_jump).day ≠ rdt.day))
    ∧ ((rdt.set_hour value valid check_jump).jump_hour = true ↔
      (check_jump = true ∧ (rdt.set_hour value valid check_jump).hour.isSome = true
        ∧ rdt.hour.isSome = true ∧ (rdt.set_hour value valid check_jump).hour ≠ rdt.hour))
    ∧ ((rdt.set_minute value valid check_jump).jump_minute = true ↔
      (check_jump = true ∧ (rdt.set_minute value valid check_jump).minute.isSome = true
        ∧ rdt.minute.isSome = true ∧ (rdt.set_minute value valid check_jump).minute ≠ rdt.minute)) := by
  refine ⟨?_, ?_, ?_, ?_, ?_, ?_⟩ <;>
    simp [RadioDateTimeUtils.set_year, RadioDateTimeUtils.set_month,
      RadioDateTimeUtils.set_weekday, RadioDateTimeUtils.set_day,
      RadioDateTimeUtils.set_hour, RadioDateTimeUtils.set_minute,
      Bool.and_eq_true, decide_eq_true_eq, and_assoc]

/-- C3 counterexample: a state past its first decoded minute, at stored
minute 0, with no DST change announced: the differing value (`Some true`
versus the clear stored SUMMER bit) is NOT accepted — the resulting mask
is still 0 — contradicting the claimed unconditional acceptance whenever
the stored minute is 0. -/
theorem C3_counterexample :
    dst_minute0_state.minute = some 0
      ∧ dst_minute0_state.first_minute = false
      ∧ (dst_minute0_state.set_dst (some true) (some false) false).dst = some 0 := by
  decide

/-- C3 (amended): a value differing from the stored SUMMER bit updates it
unconditionally on the very first call (`first_minute` true); on any call
with stored minute 0 it is accepted when the ANNOUNCED bit carried over
from the previous hour is set. -/
theorem C3_dst_change_acceptance (rdt : RadioDateTimeUtils) (vb ab cj : Bool) :
    (rdt.first_minute = true →
      ((rdt.set_dst (some vb) (some ab) cj).dst.getD 0).testBit 3 = vb)
    ∧ (rdt.minute = some 0 → (rdt.dst.getD 0).testBit 0 = true →
      ((rdt.set_dst (some vb) (some ab) cj).dst.getD 0).testBit 3 = vb) := by
  constructor
  · intro hf
    simp only [RadioDateTimeUtils.set_dst, Option.getD_some]
    rw [reset_announced_testBit _ _ 3 (by omega) (by omega),
      dst_process_testBit _ _ 3 (by omega) (by omega),
      dst_change_testBit3 _ _ _ _ _ (Or.inl hf)]
  · intro hm hann
    simp only [RadioDateTimeUtils.set_dst, Option.getD_some]
    rw [reset_announced_testBit _ _ 3 (by omega) (by omega),
      dst_process_testBit _ _ 3 (by omega) (by omega)]
    apply dst_change_testBit3
    refine Or.inr ⟨?_, hm⟩
    rw [hm, vote_announced_minute0, show DST_ANNOUNCED = 1 from rfl, hasBit_one,
      testBit_and_bnot8_other _ _ 0 (by omega) (by decide)]
    exact hann

/-- C3 witness: on the very first call a set value is accepted. -/
theorem C3_dst_change_acceptance_witness :
    (((RadioDateTimeUtils.new 0).set_dst (some true) (some false) false).dst.getD 0).testBit 3
      = true :=
  (C3_dst_change_acceptance (RadioDateTimeUtils.new 0) true false false).1 rfl

/-- C9: at stored minute 0 with the ANNOUNCED bit set (the majority vote
does not run at minute 0, so the bit is the stored one), `set_leap_second`
with minute length 60 yields a mask with PROCESSED and MISSING set, while
minute length 61 yields PROCESSED with MISSING clear; in both cases
ANNOUNCED is cleared and the announcement counter is reset to 0. -/
theorem C9_leap_second_processing (rdt : RadioDateTimeUtils) (a : Bool) (ls : Nat)
    (hmin : rdt.minute = some 0) (hls : rdt.leap_second = some ls)
    (hann : ls.testBit 0 = true) :
    (((rdt.set_leap_second (some a) 60).leap_second.getD 0).testBit 1 = true
      ∧ ((rdt.set_leap_second (some a) 60).leap_second.getD 0).testBit 2 = true
      ∧ ((rdt.set_leap_second (some a) 60).leap_second.getD 0).testBit 0 = false
      ∧ (rdt.set_leap_second (some a) 60).leap_second_count = 0)
    ∧ (((rdt.set_leap_second (some a) 61).leap_second.getD 0).testBit 1 = true
      ∧ ((rdt.set_leap_second (some a) 61).leap_second.getD 0).testBit 2 = false
      ∧ ((rdt.set_leap_second (some a) 61).leap_second.getD 0).testBit 0 = false
      ∧ (rdt.set_leap_second (some a) 61).leap_second_count = 0) := by
  have hbit : hasBit ls LEAP_ANNOUNCED = true := by
    rw [show LEAP_ANNOUNCED = 1 from rfl, hasBit_one]
    exact hann
  have h60 : rdt.set_leap_second (some a) 60 =
      { rdt with
        leap_second := some (((ls ||| LEAP_PROCESSED) ||| LEAP_MISSING) &&& bnot8 DST_ANNOUNCED)
        leap_second_count := 0 } := by
    simp only [RadioDateTimeUtils.set_leap_second]
    rw [if_neg (by omega), hmin, hls, Option.getD_some, vote_announced_minute0]
    unfold leap_process
    rw [if_pos ⟨rfl, hbit⟩, if_pos rfl]
    unfold reset_announced
    rw [if_pos rfl, if_pos rfl]
  have h61 : rdt.set_leap_second (some a) 61 =
      { rdt with
        leap_second := some (((ls ||| LEAP_PROCESSED) &&& bnot8 LEAP_MISSING) &&& bnot8 DST_ANNOUNCED)
        leap_second_count := 0 } := by
    simp only [RadioDateTimeUtils.set_leap_second]
    rw [if_neg (by omega), hmin, hls, Option.getD_some, vote_announced_minute0]
    unfold leap_process
    rw [if_pos ⟨rfl, hbit⟩, if_neg (by omega)]
    unfold reset_announced
    rw [if_pos rfl, if_pos rfl]
  rw [h60, h61]
  refine ⟨⟨?_, ?_, ?_, rfl⟩, ⟨?_, ?_, ?_, rfl⟩⟩
  · rw [Option.getD_some, testBit_and_bnot8_other _ _ 1 (by omega) (by decide),
      testBit_or_false 1 (by decide), testBit_or_true 1 (by decide)]
  · rw [Option.getD_some, testBit_and_bnot8_other _ _ 2 (by omega) (by decide),
      testBit_or_true 2 (by decide)]
  · rw [Option.getD_some]
    exact testBit_and_bnot8_self _ _ 0 (by omega) (by decide)
  · rw [Option.getD_some, testBit_and_bnot8_other _ _ 1 (by omega) (by decide),
      testBit_and_bnot8_other _ _ 1 (by omega) (by decide),
      testBit_or_true 1 (by decide)]
  · rw [Option.getD_some, testBit_and_bnot8_other _ _ 2 (by omega) (by decide)]
    exact testBit_and_bnot8_self _ _ 2 (by omega) (by decide)
  · rw [Option.getD_some]
    exact testBit_and_bnot8_self _ _ 0 (by omega) (by decide)

/-- C9 witness: the theorem applied at a concrete state at minute 0 with
mask `LEAP_ANNOUNCED`. -/
theorem C9_leap_second_processing_witness :
    (((leap_announced_state.set_leap_second (some false) 60).leap_second.getD 0).testBit 1 = true
      ∧ ((leap_announced_state.set_leap_second (some false) 60).leap_second.getD 0).testBit 2 = true
      ∧ ((leap_announced_state.set_leap_second (some false) 60).leap_second.getD 0).testBit 0 = false
      ∧ (leap_announced_state.set_leap_second (some false) 60).leap_second_count = 0)
    ∧ (((leap_announced_state.set_leap_second (some false) 61).leap_second.getD 0).testBit 1 = true
      ∧ ((leap_announced_state.set_leap_second (some false) 61).leap_second.getD 0).testBit 2 = false
      ∧ ((leap_announced_state.set_leap_second (some false) 61).leap_second.getD 0).testBit 0 = false
      ∧ (leap_announced_state.set_leap_second (some false) 61).leap_second_count = 0) :=
  C9_leap_second_processing leap_announced_state false LEAP_ANNOUNCED rfl rfl (by decide)

/-- C10: when the stored minute is absent (and the arguments are present,
so the calls are not no-ops), `set_dst` leaves the PROCESSED bit of the
DST mask unchanged and `set_leap_second` leaves the PROCESSED and MISSING
bits of the leap-second mask unchanged (an absent mask counts as 0). -/
theorem C10_no_minute_frame (rdt : RadioDateTimeUtils) (vb ab ab2 cj : Bool)
    (len : Nat) (hmin : rdt.minute = none) (hlen : 60 ≤ len ∧ len ≤ 61) :
    ((rdt.set_dst (some vb) (some ab) cj).dst.getD 0).testBit 1
        = (rdt.dst.getD 0).testBit 1
    ∧ ((rdt.set_leap_second (some ab2) len).leap_second.getD 0).testBit 1
        = (rdt.leap_second.getD 0).testBit 1
    ∧ ((rdt.set_leap_second (some ab2) len).leap_second.getD 0).testBit 2
        = (rdt.leap_second.getD 0).testBit 2 := by
  refine ⟨?_, ?_, ?_⟩
  · simp only [RadioDateTimeUtils.set_dst, Option.getD_some]
    rw [hmin, reset_announced_none, dst_process_none,
      dst_change_testBit_other _ _ _ _ _ 1 (by omega) (by omega) (by omega),
      vote_announced_none,
      testBit_and_bnot8_other _ _ 1 (by omega) (by decide)]
  · simp only [RadioDateTimeUtils.set_leap_second]
    rw [if_neg (by omega), hmin, Option.getD_some, reset_announced_none,
      leap_process_none, vote_announced_none]
  · simp only [RadioDateTimeUtils.set_leap_second]
    rw [if_neg (by omega), hmin, Option.getD_some, reset_announced_none,
      leap_process_none, vote_announced_none]

theorem day_rollover_ne_none (rdt : RadioDateTimeUtils) (d0 wd0 mo0 y0 : Nat)
    (hd : 1 ≤ d0 ∧ d0 ≤ 31) (hw : wd0 ≤ 7) (hmo : mo0 ≤ 12) (hy : y0 ≤ 99)
    (hmw : rdt.max_weekday ≤ 7)
    (hyp : rdt.year ≠ none) (hmop : rdt.month ≠ none) (hwp : rdt.weekday ≠ none)
    (hws : ∀ w, rdt.weekday = some w → w ≤ 8) :
    day_rollover rdt d0 wd0 mo0 y0 ≠ none := by
  unfold day_rollover
  obtain ⟨old_last_day, hld⟩ := last_day_some_some rdt d0 hyp hmop hwp hws hd
  rw [hld]
  dsimp only
  rw [show chkAdd8 wd0 1 = some (wd0 + 1) from by unfold chkAdd8; rw [if_pos (by omega)],
      show chkAdd8 rdt.max_weekday 1 = some (rdt.max_weekday + 1) from by
        unfold chkAdd8; rw [if_pos (by omega)],
      show chkAdd8 d0 1 = some (d0 + 1) from by unfold chkAdd8; rw [if_pos (by omega)]]
  dsimp only
  split
  · rw [show chkAdd8 mo0 1 = some (mo0 + 1) from by unfold chkAdd8; rw [if_pos (by omega)]]
    dsimp only
    split
    · rw [show chkAdd8 y0 1 = some (y0 + 1) from by unfold chkAdd8; rw [if_pos (by omega)]]
      simp
    · simp
  · simp

/-- C2 counterexample: two reachable panics.  At 00:59 with a DST change
back to winter announced (`SUMMER` and `ANNOUNCED` set), `add_minute`
underflows the hour (`s_hour -= 1` on hour 0); and `get_bcd_value` on a
one-element buffer with the in-width span 0..=2 indexes the buffer out of
bounds.  Both are modelled as the outer `none`. -/
theorem C2_counterexample :
    underflow_state.add_minute = none
      ∧ get_bcd_value [some false] 0 2 = none := by
  decide

/-- C2 (amended): with stored fields in their normal ranges (minute at
most 59, hour at most 23, day 1..=31, weekday and `max_weekday` at most 7,
month at most 12, year at most 99) and excluding the 00:59 state with a
change back to winter announced, `add_minute` completes without a panic;
`get_bcd_value` and `get_parity` complete without a panic whenever the
span's end points lie within the buffer. -/
theorem C2_no_panic (rdt : RadioDateTimeUtils)
    (hm : ∀ m, rdt.minute = some m → m ≤ 59)
    (hh : ∀ h, rdt.hour = some h → h ≤ 23)
    (hd : ∀ d, rdt.day = some d → 1 ≤ d ∧ d ≤ 31)
    (hw : ∀ w, rdt.weekday = some w → w ≤ 7)
    (hmo : ∀ mo, rdt.month = some mo → mo ≤ 12)
    (hy : ∀ y, rdt.year = some y → y ≤ 99)
    (hmw : rdt.max_weekday ≤ 7)
    (hsafe : ¬(rdt.minute = some 59 ∧ rdt.hour = some 0
        ∧ hasBit (rdt.dst.getD 0) DST_ANNOUNCED = true
        ∧ hasBit (rdt.dst.getD 0) DST_SUMMER = true)) :
    rdt.add_minute ≠ none
    ∧ (∀ (bit_buffer : List (Option Bool)) (start stop : Nat),
        max start stop < bit_buffer.length →
        get_bcd_value bit_buffer start stop ≠ none)
    ∧ (∀ (bit_buffer : List (Option Bool)) (start stop : Nat) (parity : Option Bool),
        max start stop < bit_buffer.length →
        get_parity bit_buffer start stop parity ≠ none) := by
  refine ⟨?_, ?_, ?_⟩
  · by_cases hv : rdt.is_valid = true
    · have hvx := hv
      simp only [RadioDateTimeUtils.is_valid, Bool.and_eq_true,
        Option.isSome_iff_exists] at hvx
      obtain ⟨⟨⟨⟨⟨⟨⟨dv, hdst⟩, ⟨yv, hy2⟩⟩, ⟨mov, hmo2⟩⟩, ⟨ddv, hd2⟩⟩, ⟨wv, hw2⟩⟩,
        ⟨hrv, hh2⟩⟩, ⟨mv, hm2⟩⟩ := hvx
      have hmv : mv ≤ 59 := hm mv hm2
      have hhv : hrv ≤ 23 := hh hrv hh2
      have hdv : 1 ≤ ddv ∧ ddv ≤ 31 := hd ddv hd2
      have hwv : wv ≤ 7 := hw wv hw2
      have hmov : mov ≤ 12 := hmo mov hmo2
      have hyv : yv ≤ 99 := hy yv hy2
      have hyp : rdt.year ≠ none := by rw [hy2]; exact Option.noConfusion
      have hmop : rdt.month ≠ none := by rw [hmo2]; exact Option.noConfusion
      have hwp : rdt.weekday ≠ none := by rw [hw2]; exact Option.noConfusion
      have hws : ∀ ww, rdt.weekday = some ww → ww ≤ 8 := by
        intro ww hww
        rw [hw2] at hww
        injection hww with hww2
        omega
      unfold RadioDateTimeUtils.add_minute
      rw [if_pos hv, hm2, hh2, hd2, hw2, hmo2, hy2, hdst]
      simp only [Option.getD_some]
      rw [show chkAdd8 mv 1 = some (mv + 1) from by unfold chkAdd8; rw [if_pos (by omega)]]
      dsimp only
      by_cases h60 : mv + 1 = 60
      · rw [if_pos h60]
        have hmv59 : mv = 59 := by omega
        by_cases hann : hasBit dv DST_ANNOUNCED = true
        · by_cases hsum : hasBit dv DST_SUMMER = true
          · have hh0 : hrv ≠ 0 := by
              intro h0
              apply hsafe
              refine ⟨?_, ?_, ?_, ?_⟩
              · rw [hm2, hmv59]
              · rw [hh2, h0]
              · rw [hdst, Option.getD_some]; exact hann
              · rw [hdst, Option.getD_some]; exact hsum
            rw [if_pos hann, if_pos hsum,
              show chkSub8 hrv 1 = some (hrv - 1) from by
                unfold chkSub8; rw [if_pos (by omega)]]
            dsimp only
            rw [show chkAdd8 (hrv - 1) 1 = some (hrv - 1 + 1) from by
              unfold chkAdd8; rw [if_pos (by omega)]]
            dsimp only
            rw [if_neg (by omega : ¬(hrv - 1 + 1 = 24))]
            simp
          · rw [if_pos hann, if_neg hsum,
              show chkAdd8 hrv 1 = some (hrv + 1) from by
                unfold chkAdd8; rw [if_pos (by omega)]]
            dsimp only
            rw [show chkAdd8 (hrv + 1) 1 = some (hrv + 1 + 1) from by
              unfold chkAdd8; rw [if_pos (by omega)]]
            dsimp only
            by_cases h24 : hrv + 1 + 1 = 24
            · rw [if_pos h24]
              exact day_rollover_ne_none rdt ddv wv mov yv hdv hwv hmov hyv hmw hyp hmop hwp hws
            · rw [if_neg h24]
              simp
        · rw [if_neg hann]
          dsimp only
          rw [show chkAdd8 hrv 1 = some (hrv + 1) from by
            unfold chkAdd8; rw [if_pos (by omega)]]
          dsimp only
          by_cases h24 : hrv + 1 = 24
          · rw [if_pos h24]
            exact day_rollover_ne_none rdt ddv wv mov yv hdv hwv hmov hyv hmw hyp hmop hwp hws
          · rw [if_neg h24]
            simp
      · rw [if_neg h60]
        simp
    · unfold RadioDateTimeUtils.add_minute
      rw [if_neg hv]
      simp
  · intro bit_buffer start stop hlt
    unfold get_bcd_value
    dsimp only
    split
    · simp
    · exact bcd_loop_ne_none bit_buffer (span_indices start stop) 0 1
        fun i hi => by
          have := span_indices_le start stop i hi
          omega
  · intro bit_buffer start stop parity hlt
    cases parity with
    | none => simp [get_parity]
    | some sp =>
      simp only [get_parity]
      rw [if_pos hlt]
      simp

/-- C2 witness: the amended theorem applied at the concrete state
23:59 on 1999-12-31 (no DST change announced) and at one-element buffers
with the single-bit span 0..=0. -/
theorem C2_no_panic_witness :
    century_state.add_minute ≠ none
    ∧ (∀ (bit_buffer : List (Option Bool)) (start stop : Nat),
        max start stop < bit_buffer.length →
        get_bcd_value bit_buffer start stop ≠ none)
    ∧ (∀ (bit_buffer : List (Option Bool)) (start stop : Nat) (parity : Option Bool),
        max start stop < bit_buffer.length →
        get_parity bit_buffer start stop parity ≠ none) :=
  C2_no_panic century_state
    (by intro m hm; simp [century_state, RadioDateTimeUtils.new] at hm; omega)
    (by intro h hh; simp [century_state, RadioDateTimeUtils.new] at hh; omega)
    (by intro d hd; simp [century_state, RadioDateTimeUtils.new] at hd; omega)
    (by intro w hw; simp [century_state, RadioDateTimeUtils.new] at hw; omega)
    (by intro mo hmo; simp [century_state, RadioDateTimeUtils.new] at hmo; omega)
    (by intro y hy; simp [century_state, RadioDateTimeUtils.new] at hy; omega)
    (by decide)
    (by decide)

/-- C8: from any valid state at 23:59 on December 31 of two-digit year 99
with no DST change announced, `add_minute` succeeds and rolls the minute,
hour, day and month to 0, 0, 1, 1, wraps the year to 0, and advances the
weekday by one with wraparound from `max_weekday` to `min_weekday`. -/
theorem C8_add_minute_rollover (rdt : RadioDateTimeUtils) (w d : Nat)
    (hmin : rdt.minute = some 59) (hh : rdt.hour = some 23)
    (hd : rdt.day = some 31) (hmo : rdt.month = some 12) (hy : rdt.year = some 99)
    (hw : rdt.weekday = some w) (hwlo : rdt.min_weekday ≤ w) (hwhi : w ≤ rdt.max_weekday)
    (hmw : rdt.max_weekday ≤ 7)
    (hdst : rdt.dst = some d) (hann : hasBit d DST_ANNOUNCED = false) :
    rdt.add_minute = some (true,
      { rdt with
        minute := some 0
        hour := some 0
        day := some 1
        weekday := some (if w = rdt.max_weekday then rdt.min_weekday else w + 1)
        month := some 1
        year := some 0 }) := by
  have hv : rdt.is_valid = true := by
    simp [RadioDateTimeUtils.is_valid, hmin, hh, hd, hmo, hy, hw, hdst]
  have hld : rdt.last_day 31 = some (some 31) := by
    unfold RadioDateTimeUtils.last_day
    rw [if_neg (by simp [hy, hmo, hw])]
    rw [hy, hmo, hw]
    norm_num
  unfold RadioDateTimeUtils.add_minute
  rw [if_pos hv, hmin, hh, hd, hmo, hy, hw, hdst]
  simp only [Option.getD_some]
  rw [show chkAdd8 59 1 = some 60 from rfl]
  dsimp only
  rw [if_pos rfl, if_neg (by simp [hann])]
  dsimp only
  rw [show chkAdd8 23 1 = some 24 from rfl]
  dsimp only
  rw [if_pos rfl]
  unfold day_rollover
  rw [hld]
  dsimp only
  rw [show chkAdd8 w 1 = some (w + 1) from by unfold chkAdd8; rw [if_pos (by omega)],
    show chkAdd8 rdt.max_weekday 1 = some (rdt.max_weekday + 1) from by
      unfold chkAdd8; rw [if_pos (by omega)],
    show chkAdd8 31 1 = some 32 from rfl]
  dsimp only
  rw [if_pos (by omega : (31 : Nat) < 32),
    show chkAdd8 12 1 = some 13 from rfl]
  dsimp only
  rw [if_pos rfl, show chkAdd8 99 1 = some 100 from rfl]
  dsimp only
  rw [if_pos rfl]
  simp only [RadioDateTimeUtils.store, add_left_inj]
  rw [hdst]

/-- C8 witness: the theorem applied at the concrete MSF-style state 23:59
on Friday 1999-12-31 (weekday 5 of 0..=6). -/
theorem C8_add_minute_rollover_witness :
    century_state.add_minute = some (true,
      { century_state with
        minute := some 0
        hour := some 0
        day := some 1
        weekday := some (if 5 = century_state.max_weekday
          then century_state.min_weekday else 5 + 1)
        month := some 1
        year := some 0 }) :=
  C8_add_minute_rollover century_state 5 0 rfl rfl rfl rfl rfl rfl
    (by decide) (by decide) (by decide) rfl (by decide)

/-- C10 witness: the theorem applied at a concrete state with no minute
and fully populated masks. -/
theorem C10_no_minute_frame_witness :
    ((no_minute_state.set_dst (some true) (some false) true).dst.getD 0).testBit 1
        = (no_minute_state.dst.getD 0).testBit 1
    ∧ ((no_minute_state.set_leap_second (some true) 60).leap_second.getD 0).testBit 1
        = (no_minute_state.leap_second.getD 0).testBit 1
    ∧ ((no_minute_state.set_leap_second (some true) 60).leap_second.getD 0).testBit 2
        = (no_minute_state.leap_second.getD 0).testBit 2 :=
  C10_no_minute_frame no_minute_state true false true true 60 rfl (by omega)

end RadioDatetimeUtils
